import Mathlib

/-!
Verification of the optimistic response-reconciliation and resilient-request
subsystem of the bellewood golf crew mobile client.

The definitions below are a shallow embedding of:
  * the transient-error classifier `isRetryableError` and the retrying
    request loop `apiRequest` from the REST api module (`RETRY_CONFIG`,
    `calculateDelay`, the `for` loop over attempts);
  * the `useSessionResponse` hook: the optimistic-overlay map
    (`optimisticResponses`), the submission tracker (`submittingResponse`),
    the merged read `getUserResponse`, and the three mutation handlers
    `handleStatusClick`, `handleNoteChange`, `handleTransportChange`.

JavaScript objects keyed by `userId` are modelled as association lists with
replace-on-set semantics; `async` handlers become pure functions
parameterised by the outcome of the awaited mutation call; every state
mutation performed by a handler is additionally logged as an `Event` so
order-of-effects properties (what got called, what got cleared, and when)
can be stated.
-/

namespace Golf

/-- Response status enum: `'IN' | 'OUT' | 'UNDECIDED'`. -/
inductive ResponseStatus where
  | IN
  | OUT
  | UNDECIDED
deriving DecidableEq

/-- Transport enum: `'WALKING' | 'RIDING'`. -/
inductive TransportType where
  | WALKING
  | RIDING
deriving DecidableEq

/-- The `user` sub-object of a response: `{ id, nickname }`. -/
structure UserRef where
  id : String
  nickname : String
deriving DecidableEq

/-- One element of `GolfSession.responses`:
`{ id, status, note?, transport?, user }`.  Optional fields are `Option`s.
The merged object built by `getUserResponse` has the same shape, so this
type also serves as the effective response. -/
structure Response where
  id : String
  status : ResponseStatus
  note : Option String
  transport : Option TransportType
  user : UserRef
deriving DecidableEq

/-- The part of a `GolfSession` read by the hook: `id` and `responses`.
(The remaining fields — title, date, tags, … — are never consulted by the
code under verification.) -/
structure GolfSession where
  id : String
  responses : List Response
deriving DecidableEq

/-- An optimistic overlay entry `{ status, note, transport }`.  `transport`
is an `Option` because the runtime object written on the delete-failure
restore path omits the `transport` property (it is `undefined` there). -/
structure OptimisticEntry where
  status : ResponseStatus
  note : String
  transport : Option TransportType
deriving DecidableEq

/-- A JavaScript object keyed by `userId`, holding optimistic entries. -/
abbrev OverlayMap := List (String × OptimisticEntry)

/-- Property lookup `obj[userId]` on the overlay object. -/
def lookupEntry (m : OverlayMap) (k : String) : Option OptimisticEntry :=
  (m.find? (fun p => p.1 == k)).map (fun p => p.2)

/-- `delete obj[userId]` on the overlay object. -/
def eraseKey (m : OverlayMap) (k : String) : OverlayMap :=
  m.filter (fun p => !(p.1 == k))

/-- `{ ...obj, [userId]: v }` on the overlay object (replace-on-set). -/
def setKey (m : OverlayMap) (k : String) (v : OptimisticEntry) : OverlayMap :=
  (k, v) :: eraseKey m k

/-- `golfUtils.findUserResponse`: `responses.find(r => r.user.id === userId) || null`. -/
def findUserResponse (responses : List Response) (userId : String) : Option Response :=
  responses.find? (fun r => r.user.id == userId)

/-- The merged read `getUserResponse(userId)` of the hook.  It depends only
on `session.responses` and `optimisticResponses` (the hook's dependency
list).  When an overlay entry exists, the returned object takes `status`,
`note` and `transport` from the entry; `id` is
`serverResponse?.id || 'optimistic-' + userId` (JavaScript truthiness: an
empty id falls through to the synthesized one) and `user` is
`serverResponse?.user || { id: userId, nickname: '' }`. -/
def getUserResponse (responses : List Response) (optimistic : OverlayMap)
    (userId : String) : Option Response :=
  match lookupEntry optimistic userId with
  | some e =>
    let serverResponse := findUserResponse responses userId
    some {
      id := match serverResponse with
        | some r => if r.id = "" then "optimistic-" ++ userId else r.id
        | none => "optimistic-" ++ userId
      status := e.status
      note := some e.note
      transport := e.transport
      user := match serverResponse with
        | some r => r.user
        | none => { id := userId, nickname := "" } }
  | none => findUserResponse responses userId

/-! ## Transient-error classifier and resilient request executor -/

/-- `RETRY_CONFIG.maxRetries`. -/
def maxRetries : Nat := 4

/-- `RETRY_CONFIG.baseDelayMs`. -/
def baseDelayMs : Nat := 1500

/-- `RETRY_CONFIG.maxDelayMs`. -/
def maxDelayMs : Nat := 15000

/-- `RETRY_CONFIG.backoffMultiplier`. -/
def backoffMultiplier : Nat := 2

/-- `RETRY_CONFIG.retryableErrors`: the transient-failure signatures. -/
def retryableErrors : List String :=
  [ "Network request failed"
  , "fetch failed"
  , "timeout"
  , "ECONNRESET"
  , "ETIMEDOUT"
  , "Failed to fetch"
  , "NetworkError"
  , "TypeError: fetch failed"
  , "TypeError: Network request failed"
  , "Load failed"
  , "Connection failed"
  , "Request timeout"
  , "Service Unavailable" ]

/-- `String.prototype.toLowerCase` (ASCII, which covers every configured
signature). -/
def jsToLower (s : String) : String :=
  ⟨s.data.map Char.toLower⟩

/-- `String.prototype.trim`: strip leading and trailing whitespace. -/
def jsTrim (s : String) : String :=
  ⟨((s.data.dropWhile Char.isWhitespace).reverse.dropWhile Char.isWhitespace).reverse⟩

/-- `String.prototype.includes`: contiguous-substring test. -/
def strIncludes (s sub : String) : Bool :=
  (List.range (s.data.length + 1)).any (fun i => sub.data.isPrefixOf (s.data.drop i))

/-- The `hasRetryableMessage` conjunct of the classifier applied to a
present message: some configured signature occurs, case-insensitively, in
the message. -/
def hasRetryableMessage (msg : String) : Bool :=
  retryableErrors.any (fun r => strIncludes (jsToLower msg) (jsToLower r))

/-- `isRetryableError(error, response?)`.  `errMsg` is `error?.message`
(`none` when absent) and `respStatus` is `response?.status` (`none` when no
response object was supplied — `response && (...)` is then falsy). -/
def isRetryableError (errMsg : Option String) (respStatus : Option Nat) : Bool :=
  let errorMessage := (errMsg.map jsToLower).getD ""
  let hasMsg := retryableErrors.any (fun r => strIncludes errorMessage (jsToLower r))
  let hasStatus := match respStatus with
    | some s => (s == 502) || (s == 503) || (s == 504) || (s == 0)
    | none => false
  hasMsg || hasStatus

/-- `calculateDelay(attempt) = min(baseDelayMs * backoffMultiplier^attempt, maxDelayMs)`. -/
def calculateDelay (attempt : Nat) : Nat :=
  min (baseDelayMs * backoffMultiplier ^ attempt) maxDelayMs

/-- The observable outcome of one `fetch` in the retry loop: either the
promise rejects with an error carrying `msg`, or a `Response` with the
given HTTP `status` arrives.  For a non-ok response the loop constructs
`new Error(errorData.error || 'HTTP <status>')`; `errMsg` is that
constructed message.  `data` is the parsed body returned on success. -/
inductive FetchOutcome (α : Type) where
  | netThrow (msg : String)
  | httpResp (status : Nat) (errMsg : String) (data : α)

/-- The error message an attempt fails with. -/
def FetchOutcome.failMsg {α : Type} : FetchOutcome α → String
  | .netThrow m => m
  | .httpResp _ e _ => e

/-- What one run of `apiRequest` did: the returned data or the propagated
error, the number of attempts made, and the injected backoff delays in
order. -/
structure ApiRunResult (α : Type) where
  result : Except String α
  attempts : Nat
  delays : List Nat

/-- One iteration of the `for (attempt = 0; attempt <= maxRetries; ...)`
loop of `apiRequest`, at index `attempt`, given the outcome of each
attempt's `fetch` as `op`.  `lastResp` is the status of the most recent
response seen (the `lastResponse` variable — note it is stale across
attempts whose `fetch` rejected), `lastErr` the most recent error.

Control flow transcribed from the source: a non-ok response's error is
thrown inside the `try` and lands in the same iteration's `catch`, which
re-tests retryability against `lastResponse` (by then the current
response) and breaks on the same condition, so the two paths below cover
it exactly; the loop epilogue `throw lastError` is the `.error` result.
`fuel` bounds the recursion at the loop's own bound `maxRetries + 1`. -/
def apiLoop {α : Type} (op : Nat → FetchOutcome α) :
    Nat → Nat → Option Nat → String → List Nat → ApiRunResult α
  | 0, attempt, _, lastErr, delays => ⟨Except.error lastErr, attempt, delays⟩
  | fuel + 1, attempt, lastResp, _, delays =>
    let delays' := if attempt = 0 then delays else delays ++ [calculateDelay (attempt - 1)]
    match op attempt with
    | FetchOutcome.httpResp status errMsg data =>
      if 200 ≤ status ∧ status < 300 then
        ⟨Except.ok data, attempt + 1, delays'⟩
      else if isRetryableError (some errMsg) (some status) = false ∨ attempt = maxRetries then
        ⟨Except.error errMsg, attempt + 1, delays'⟩
      else
        apiLoop op fuel (attempt + 1) (some status) errMsg delays'
    | FetchOutcome.netThrow msg =>
      if isRetryableError (some msg) lastResp = false ∨ attempt = maxRetries then
        ⟨Except.error msg, attempt + 1, delays'⟩
      else
        apiLoop op fuel (attempt + 1) lastResp msg delays'

/-- `apiRequest`: run the retry loop from attempt 0. -/
def apiRequest {α : Type} (op : Nat → FetchOutcome α) : ApiRunResult α :=
  apiLoop op (maxRetries + 1) 0 none "" []

/-- An attempt outcome that is a failure the classifier calls transient:
a rejected `fetch` whose message carries a retryable signature (hence
classified retryable whatever `lastResponse` holds), or a non-2xx response
classified retryable from its constructed error and status. -/
def failsRetryably {α : Type} : FetchOutcome α → Prop
  | .netThrow m => hasRetryableMessage m = true
  | .httpResp s e _ => ¬(200 ≤ s ∧ s < 300) ∧ isRetryableError (some e) (some s) = true

/-! ## The `useSessionResponse` hook -/

/-- A settle callback registered with `setTimeout(cb, delayMs)` whose body
deletes the overlay entry for `userId`. -/
structure PendingTimer where
  delayMs : Nat
  userId : String
deriving DecidableEq

/-- The hook's state: the `session` prop (fixed for the duration of one
handler invocation — the handlers close over it) and the four `useState`
cells the claims touch, plus the settle callbacks currently scheduled.
(`editingNotes` is draft-input state not involved in any claim.) -/
structure HookState where
  session : GolfSession
  optimisticResponses : OverlayMap
  submittingResponse : Option String
  error : Option String
  timers : List PendingTimer
deriving DecidableEq

/-- The payload object passed to `submitResponse(session.id, {...})`. -/
structure SubmitPayload where
  userId : String
  status : ResponseStatus
  note : String
  transport : TransportType
deriving DecidableEq

/-- A log of each externally visible step a handler performs, in program
order: the two state setters, overlay writes, the mutation call, and
`setTimeout` scheduling. -/
inductive Event where
  | setSubmitting (v : Option String)
  | setErr (v : Option String)
  | ovSet (userId : String) (e : OptimisticEntry)
  | ovClear (userId : String)
  | callSubmit (sessionId : String) (payload : SubmitPayload)
  | callDelete (sessionId : String) (userId : String)
  | scheduleOvClear (delayMs : Nat) (userId : String)
deriving DecidableEq

/-- State being threaded through a handler body together with its event log. -/
abbrev M := HookState × List Event

/-- `setSubmittingResponse(v)`. -/
def emitSetSubmitting (m : M) (v : Option String) : M :=
  ({ m.1 with submittingResponse := v }, m.2 ++ [Event.setSubmitting v])

/-- `setError(v)`. -/
def emitSetError (m : M) (v : Option String) : M :=
  ({ m.1 with error := v }, m.2 ++ [Event.setErr v])

/-- `setOptimisticResponses(prev => ({ ...prev, [userId]: e }))`. -/
def emitOvSet (m : M) (userId : String) (e : OptimisticEntry) : M :=
  ({ m.1 with optimisticResponses := setKey m.1.optimisticResponses userId e },
   m.2 ++ [Event.ovSet userId e])

/-- `setOptimisticResponses(prev => { delete newState[userId] ... })`. -/
def emitOvClear (m : M) (userId : String) : M :=
  ({ m.1 with optimisticResponses := eraseKey m.1.optimisticResponses userId },
   m.2 ++ [Event.ovClear userId])

/-- `await submitResponse(sessionId, payload)` — the call itself (its
outcome is a handler parameter). -/
def emitCallSubmit (m : M) (sessionId : String) (p : SubmitPayload) : M :=
  (m.1, m.2 ++ [Event.callSubmit sessionId p])

/-- `await deleteResponse(sessionId, userId)` — the call itself. -/
def emitCallDelete (m : M) (sessionId : String) (userId : String) : M :=
  (m.1, m.2 ++ [Event.callDelete sessionId userId])

/-- `setTimeout(() => setOptimisticResponses(delete [userId]), delayMs)`:
registers the settle callback without touching the overlay yet. -/
def emitSchedule (m : M) (delayMs : Nat) (userId : String) : M :=
  ({ m.1 with timers := m.1.timers ++ [⟨delayMs, userId⟩] },
   m.2 ++ [Event.scheduleOvClear delayMs userId])

/-- Running a previously scheduled settle callback: its body deletes the
overlay entry for `t.userId`. -/
def runTimer (st : HookState) (t : PendingTimer) : HookState :=
  { st with optimisticResponses := eraseKey st.optimisticResponses t.userId }

/-- Outcome of the awaited mutation call inside a handler: the wrapper
returned `{success: true}`, returned `{success: false, error: msg}`, or the
awaited promise rejected with `msg` (landing in the handler's `catch`). -/
inductive CallOutcome where
  | ok
  | fail (msg : String)
  | thrown (msg : String)

/-- The result object a handler returns: `{ success, error? }`. -/
structure MutResult where
  success : Bool
  error : Option String
deriving DecidableEq

/-- A finished handler invocation: final hook state, the event log, and the
returned result object. -/
structure StepOut where
  state : HookState
  events : List Event
  result : MutResult

/-- `handleStatusClick(userId, status)`, given the outcome of the one
mutation call it awaits.  Direct transcription: `try { mark submitting;
clear error; read current; derive note/transport defaults; toggle-off ⇒
clear overlay + deleteResponse (restore `{status, note}` — sans transport —
on returned failure); otherwise set overlay + submitResponse (clear overlay
on success and on returned failure) } catch { set error; clear overlay }
finally { clear submitting mark }`. -/
def handleStatusClick (st0 : HookState) (userId : String) (status : ResponseStatus)
    (outcome : CallOutcome) : StepOut :=
  let m1 := emitSetSubmitting (st0, []) (some userId)
  let m2 := emitSetError m1 none
  let currentResponse :=
    getUserResponse m2.1.session.responses m2.1.optimisticResponses userId
  let note := (currentResponse.bind Response.note).getD ""
  let transport := (currentResponse.bind Response.transport).getD TransportType.WALKING
  let shouldRemoveResponse : Bool := match currentResponse with
    | some r => decide (r.status = status)
    | none => false
  if shouldRemoveResponse then
    let m3 := emitOvClear m2 userId
    let m4 := emitCallDelete m3 st0.session.id userId
    match outcome with
    | CallOutcome.ok =>
      let m5 := emitSetSubmitting m4 none
      ⟨m5.1, m5.2, { success := true, error := none }⟩
    | CallOutcome.fail msg =>
      let m5 := match currentResponse with
        | some r =>
          emitOvSet m4 userId
            { status := r.status, note := r.note.getD "", transport := none }
        | none => m4
      let m6 := emitSetSubmitting m5 none
      ⟨m6.1, m6.2, { success := false, error := some msg }⟩
    | CallOutcome.thrown msg =>
      let m5 := emitSetError m4 (some msg)
      let m6 := emitOvClear m5 userId
      let m7 := emitSetSubmitting m6 none
      ⟨m7.1, m7.2, { success := false, error := some msg }⟩
  else
    let m3 := emitOvSet m2 userId { status := status, note := note, transport := some transport }
    let m4 := emitCallSubmit m3 st0.session.id
      { userId := userId, status := status, note := note, transport := transport }
    match outcome with
    | CallOutcome.ok =>
      let m5 := emitOvClear m4 userId
      let m6 := emitSetSubmitting m5 none
      ⟨m6.1, m6.2, { success := true, error := none }⟩
    | CallOutcome.fail msg =>
      let m5 := emitOvClear m4 userId
      let m6 := emitSetSubmitting m5 none
      ⟨m6.1, m6.2, { success := false, error := some msg }⟩
    | CallOutcome.thrown msg =>
      let m5 := emitSetError m4 (some msg)
      let m6 := emitOvClear m5 userId
      let m7 := emitSetSubmitting m6 none
      ⟨m7.1, m7.2, { success := false, error := some msg }⟩

/-- `handleNoteChange(userId, note)`.  Direct transcription: `try { clear
error; read current; hold status/transport at effective values; trim note;
set overlay; submitResponse; clear overlay only when `result.success` }
catch { set error; clear overlay }`.  Note: a returned `{success: false}`
takes neither branch — the overlay entry and the error slot are left
untouched on that path. -/
def handleNoteChange (st0 : HookState) (userId note : String)
    (outcome : CallOutcome) : StepOut :=
  let m1 := emitSetError (st0, []) none
  let currentResponse :=
    getUserResponse m1.1.session.responses m1.1.optimisticResponses userId
  let status := (currentResponse.map Response.status).getD ResponseStatus.UNDECIDED
  let transport := (currentResponse.bind Response.transport).getD TransportType.WALKING
  let trimmedNote := jsTrim note
  let m2 := emitOvSet m1 userId
    { status := status, note := trimmedNote, transport := some transport }
  let m3 := emitCallSubmit m2 st0.session.id
    { userId := userId, status := status, note := trimmedNote, transport := transport }
  match outcome with
  | CallOutcome.ok =>
    let m4 := emitOvClear m3 userId
    ⟨m4.1, m4.2, { success := true, error := none }⟩
  | CallOutcome.fail msg =>
    ⟨m3.1, m3.2, { success := false, error := some msg }⟩
  | CallOutcome.thrown msg =>
    let m4 := emitSetError m3 (some msg)
    let m5 := emitOvClear m4 userId
    ⟨m5.1, m5.2, { success := false, error := some msg }⟩

/-- `handleTransportChange(userId, transport)`.  Direct transcription:
`try { clear error; read current; hold status/note at effective values; set
overlay; submitResponse; on success schedule the overlay clear behind a
100ms `setTimeout`; on returned failure clear the overlay immediately }
catch { set error; clear overlay }`. -/
def handleTransportChange (st0 : HookState) (userId : String)
    (transport : TransportType) (outcome : CallOutcome) : StepOut :=
  let m1 := emitSetError (st0, []) none
  let currentResponse :=
    getUserResponse m1.1.session.responses m1.1.optimisticResponses userId
  let status := (currentResponse.map Response.status).getD ResponseStatus.UNDECIDED
  let note := (currentResponse.bind Response.note).getD ""
  let m2 := emitOvSet m1 userId
    { status := status, note := note, transport := some transport }
  let m3 := emitCallSubmit m2 st0.session.id
    { userId := userId, status := status, note := note, transport := transport }
  match outcome with
  | CallOutcome.ok =>
    let m4 := emitSchedule m3 100 userId
    ⟨m4.1, m4.2, { success := true, error := none }⟩
  | CallOutcome.fail msg =>
    let m4 := emitOvClear m3 userId
    ⟨m4.1, m4.2, { success := false, error := some msg }⟩
  | CallOutcome.thrown msg =>
    let m4 := emitSetError m3 (some msg)
    let m5 := emitOvClear m4 userId
    ⟨m5.1, m5.2, { success := false, error := some msg }⟩

/-- `isSubmitting(userId)`: `submittingResponse === userId`. -/
def isSubmitting (st : HookState) (userId : String) : Bool :=
  st.submittingResponse == some userId

/-- The `setSessions` update `useGolfSessions.submitResponse` performs on a
successful submit: replace the user's response in the session with the
server echo. -/
def applySubmitSuccess (s : GolfSession) (userId : String) (echo : Response) : GolfSession :=
  { s with responses := (s.responses.filter (fun r => !(r.user.id == userId))) ++ [echo] }

/-- Keep only the mutation-call events of a log. -/
def mutationCalls (evs : List Event) : List Event :=
  evs.filter (fun e => match e with
    | Event.callSubmit _ _ => true
    | Event.callDelete _ _ => true
    | _ => false)

/-- The arguments of the `setSubmittingResponse` calls in a log, in order. -/
def submitMarks (evs : List Event) : List (Option String) :=
  evs.filterMap (fun e => match e with
    | Event.setSubmitting v => some v
    | _ => none)

/-- Does the log clear the overlay entry of `userId` (immediately, as
opposed to scheduling a delayed clear)? -/
def isOvClearFor (userId : String) : Event → Bool :=
  fun e => match e with
    | Event.ovClear v => v == userId
    | _ => false

/-! ## Concrete fixtures used by counterexamples, scenarios and witnesses -/

/-- An operation whose every attempt rejects with a transient network
failure (a configured signature). -/
def alwaysNetworkFail : Nat → FetchOutcome Unit :=
  fun _ => FetchOutcome.netThrow "timeout"

/-- A 404-equivalent operation: every attempt yields an HTTP 404 response
whose constructed error message is non-transient. -/
def notFoundOp : Nat → FetchOutcome Unit :=
  fun _ => FetchOutcome.httpResp 404 "HTTP 404" Unit.unit

/-- A server record for user `u1`: `{status: IN, note: "bring cart",
transport: RIDING}`. -/
def exRidingResponse : Response :=
  { id := "r1", status := ResponseStatus.IN, note := some "bring cart"
  , transport := some TransportType.RIDING, user := { id := "u1", nickname := "Bob" } }

/-- Hook state whose session holds `exRidingResponse` and nothing else;
overlay empty, nobody submitting, no error, no timers. -/
def exRidingState : HookState :=
  { session := { id := "s1", responses := [exRidingResponse] }
  , optimisticResponses := [], submittingResponse := none, error := none, timers := [] }

/-- Hook state with an empty session: no responses at all. -/
def exEmptyState : HookState :=
  { session := { id := "s1", responses := [] }
  , optimisticResponses := [], submittingResponse := none, error := none, timers := [] }

/-- A degenerate server record whose `id` is the empty string. -/
def exEmptyIdRecord : Response :=
  { id := "", status := ResponseStatus.IN, note := none, transport := none
  , user := { id := "u1", nickname := "Ann" } }

/-- An overlay entry `{status: OUT, note: "n", transport: WALKING}` for `u1`. -/
def exOutEntry : OptimisticEntry :=
  { status := ResponseStatus.OUT, note := "n", transport := some TransportType.WALKING }

/-- The server echo of a successful `submitResponse(s1, {u1, IN, '', WALKING})`. -/
def exEchoIn : Response :=
  { id := "srv1", status := ResponseStatus.IN, note := some ""
  , transport := some TransportType.WALKING, user := { id := "u1", nickname := "Bob" } }

/-! ## Helper lemmas -/

/-- The classifier on a present message, split into its two disjuncts. -/
theorem isRetryable_some_eq (m : String) (r : Option Nat) :
    isRetryableError (some m) r =
      (hasRetryableMessage m ||
        match r with
        | some s => (s == 502) || (s == 503) || (s == 504) || (s == 0)
        | none => false) := by
  simp [isRetryableError, hasRetryableMessage]

/-- A message carrying a transient signature is classified retryable no
matter which response (if any) accompanies it. -/
theorem isRetryable_of_message {m : String} (hm : hasRetryableMessage m = true)
    (r : Option Nat) : isRetryableError (some m) r = true := by
  rw [isRetryable_some_eq, hm, Bool.true_or]

/-- Reading back the key just written into the overlay object. -/
theorem lookupEntry_setKey (m : OverlayMap) (k : String) (v : OptimisticEntry) :
    lookupEntry (setKey m k v) k = some v := by
  simp [lookupEntry, setKey, List.find?]

/-- Reading a key just deleted from the overlay object. -/
theorem lookupEntry_eraseKey (m : OverlayMap) (k : String) :
    lookupEntry (eraseKey m k) k = none := by
  have hfind : List.find? (fun p => p.1 == k) (List.filter (fun p => !(p.1 == k)) m) = none := by
    apply List.find?_eq_none.mpr
    intro p hp
    rcases List.mem_filter.mp hp with ⟨_, hf⟩
    simpa using hf
  simp [lookupEntry, eraseKey, hfind]

/-- One non-final iteration of the retry loop on a transiently failing
attempt recurses with the delay for that retry appended. -/
theorem apiLoop_step {α : Type} (op : Nat → FetchOutcome α) (fuel attempt : Nat)
    (lastResp : Option Nat) (lastErr : String) (delays : List Nat)
    (hatt : attempt < maxRetries) (hf : failsRetryably (op attempt)) :
    apiLoop op (fuel + 1) attempt lastResp lastErr delays =
      apiLoop op fuel (attempt + 1)
        (match op attempt with
         | FetchOutcome.netThrow _ => lastResp
         | FetchOutcome.httpResp s _ _ => some s)
        (op attempt).failMsg
        (if attempt = 0 then delays else delays ++ [calculateDelay (attempt - 1)]) := by
  cases hop : op attempt with
  | netThrow m =>
    rw [hop] at hf
    simp only [failsRetryably] at hf
    have hcond : ¬(isRetryableError (some m) lastResp = false ∨ attempt = maxRetries) := by
      rw [isRetryable_of_message hf]
      simp only [Bool.true_eq_false, false_or]
      omega
    simp only [apiLoop, hop, FetchOutcome.failMsg, if_neg hcond]
  | httpResp s e d =>
    rw [hop] at hf
    simp only [failsRetryably] at hf
    obtain ⟨hnotok, hretry⟩ := hf
    have hcond : ¬(isRetryableError (some e) (some s) = false ∨ attempt = maxRetries) := by
      rw [hretry]
      simp only [Bool.true_eq_false, false_or]
      omega
    simp only [apiLoop, hop, FetchOutcome.failMsg, if_neg hnotok, if_neg hcond]

/-- The final (fifth) iteration of the retry loop on a failing attempt
breaks and propagates that attempt's error. -/
theorem apiLoop_last {α : Type} (op : Nat → FetchOutcome α) (fuel : Nat)
    (lastResp : Option Nat) (lastErr : String) (delays : List Nat)
    (hf : failsRetryably (op 4)) :
    apiLoop op (fuel + 1) 4 lastResp lastErr delays =
      ⟨Except.error ((op 4).failMsg), 5, delays ++ [calculateDelay 3]⟩ := by
  cases hop : op 4 with
  | netThrow m =>
    simp only [apiLoop, hop, FetchOutcome.failMsg]
    have h4 : (4 : Nat) = maxRetries := rfl
    rw [if_pos (Or.inr h4)]
    norm_num
  | httpResp s e d =>
    rw [hop] at hf
    simp only [failsRetryably] at hf
    simp only [apiLoop, hop, FetchOutcome.failMsg]
    have h4 : (4 : Nat) = maxRetries := rfl
    rw [if_neg hf.1, if_pos (Or.inr h4)]
    norm_num

/-! ## Claim theorems -/

/-- Claim C2: an operation failing with a retryable (transient) error on
every attempt is tried exactly 5 times (1 initial + `maxRetries` = 4
retries); the delay injected before retry `k` (k = 1..4) is
`min(1500·2^(k-1), 15000)` ms, i.e. 1500, 3000, 6000, 12000 ms, summing to
22500 ms; the last failure is then propagated. -/
theorem apiRequest_exhausts_retries_on_transient_failure {α : Type}
    (op : Nat → FetchOutcome α) (h : ∀ i, i ≤ maxRetries → failsRetryably (op i)) :
    (apiRequest op).attempts = 5 ∧
    (apiRequest op).delays = [1500, 3000, 6000, 12000] ∧
    (∀ k, 1 ≤ k → k ≤ 4 →
      (apiRequest op).delays[k - 1]? = some (min (1500 * 2 ^ (k - 1)) 15000)) ∧
    (apiRequest op).delays.sum = 22500 ∧
    (apiRequest op).result = Except.error ((op 4).failMsg) := by
  have echain : apiRequest op =
      ⟨Except.error ((op 4).failMsg), 5, [1500, 3000, 6000, 12000]⟩ := by
    refine Eq.trans (Eq.trans (Eq.trans (Eq.trans (Eq.trans
      (rfl : apiRequest op = apiLoop op (4 + 1) 0 none "" [])
      (apiLoop_step op 4 0 none "" [] (by decide) (h 0 (by decide))))
      (apiLoop_step op 3 1 _ _ _ (by decide) (h 1 (by decide))))
      (apiLoop_step op 2 2 _ _ _ (by decide) (h 2 (by decide))))
      (apiLoop_step op 1 3 _ _ _ (by decide) (h 3 (by decide))))
      ?_
    rw [apiLoop_last op 0 _ _ _ (h 4 (by decide))]
    congr 1 <;> decide
  have hdel : (apiRequest op).delays = [1500, 3000, 6000, 12000] := by rw [echain]
  refine ⟨by rw [echain], hdel, ?_, by rw [hdel]; decide, by rw [echain]⟩
  intro k hk1 hk4
  rw [hdel]
  interval_cases k <;> decide

/-- Claim C2 witness: the retry bound instantiated on an operation whose
every attempt rejects with the transient message "timeout". -/
theorem apiRequest_exhausts_retries_witness :
    (apiRequest alwaysNetworkFail).attempts = 5 ∧
    (apiRequest alwaysNetworkFail).delays = [1500, 3000, 6000, 12000] ∧
    (apiRequest alwaysNetworkFail).delays.sum = 22500 ∧
    (apiRequest alwaysNetworkFail).result = Except.error "timeout" := by
  have h := apiRequest_exhausts_retries_on_transient_failure alwaysNetworkFail
    (fun i _ => (by decide : hasRetryableMessage "timeout" = true))
  exact ⟨h.1, h.2.1, h.2.2.2.1, h.2.2.2.2⟩

/-- Claim C3: `isRetryableError` returns true exactly when the error's
message case-insensitively contains a configured transient signature, or an
HTTP status is present and lies in {502, 503, 504, 0}; consequently every
4xx status with a non-transient message is classified non-retryable, and a
404-equivalent failure makes exactly one attempt through the executor. -/
theorem isRetryableError_characterization :
    (∀ (errMsg : Option String) (respStatus : Option Nat),
      isRetryableError errMsg respStatus = true ↔
        ((∃ sig ∈ retryableErrors,
            strIncludes ((errMsg.map jsToLower).getD "") (jsToLower sig) = true) ∨
         (∃ s, respStatus = some s ∧ (s = 502 ∨ s = 503 ∨ s = 504 ∨ s = 0)))) ∧
    (∀ (msg : String) (s : Nat), hasRetryableMessage msg = false →
      400 ≤ s → s < 500 → isRetryableError (some msg) (some s) = false) ∧
    ((apiRequest notFoundOp).attempts = 1 ∧
      (apiRequest notFoundOp).result = Except.error "HTTP 404") := by
  refine ⟨?_, ?_, by decide, by rfl⟩
  · intro errMsg respStatus
    simp only [isRetryableError, Bool.or_eq_true]
    apply or_congr
    · simp [List.any_eq_true]
    · cases respStatus with
      | none => simp
      | some s =>
        simp only [beq_iff_eq, Bool.or_eq_true, Option.some.injEq]
        constructor
        · rintro (((h | h) | h) | h) <;> exact ⟨s, rfl, by tauto⟩
        · rintro ⟨s', hs', h⟩
          cases hs'
          tauto
  · intro msg s hmsg h4 h5
    rw [isRetryable_some_eq, hmsg]
    simp only [Bool.false_or]
    have e502 : (s == 502) = false := by simp; omega
    have e503 : (s == 503) = false := by simp; omega
    have e504 : (s == 504) = false := by simp; omega
    have e0 : (s == 0) = false := by simp; omega
    rw [e502, e503, e504, e0]
    rfl

/-- Claim C3 witness: a 404 with message "HTTP 404" is classified
non-retryable. -/
theorem isRetryableError_witness :
    isRetryableError (some "HTTP 404") (some 404) = false :=
  isRetryableError_characterization.2.1 "HTTP 404" 404 (by decide)
    (by norm_num) (by norm_num)

/-- Claim C1 (amended): for every `userId`, when an overlay entry exists
`getUserResponse` returns an effective response whose `status`, `note` and
`transport` come from the entry; its `user` identity comes from the
Repository record whenever one exists (else the synthesized empty-nickname
identity) and its `id` comes from the Repository record when one exists
with a nonempty `id` (else — record missing, or its `id` the empty string,
which JavaScript `||` treats as absent — the synthesized
`optimistic-<userId>` id).  When no overlay entry exists it returns exactly
the Repository's record, or `none` if there is none. -/
theorem getUserResponse_merge (responses : List Response) (ov : OverlayMap)
    (uid : String) :
    (∀ e, lookupEntry ov uid = some e →
      ∃ eff, getUserResponse responses ov uid = some eff ∧
        eff.status = e.status ∧ eff.note = some e.note ∧
        eff.transport = e.transport ∧
        (∀ r, findUserResponse responses uid = some r →
          eff.user = r.user ∧
          (r.id ≠ "" → eff.id = r.id) ∧
          (r.id = "" → eff.id = "optimistic-" ++ uid)) ∧
        (findUserResponse responses uid = none →
          eff.user = { id := uid, nickname := "" } ∧
          eff.id = "optimistic-" ++ uid)) ∧
    (lookupEntry ov uid = none →
      getUserResponse responses ov uid = findUserResponse responses uid) := by
  constructor
  · intro e he
    cases hf : findUserResponse responses uid with
    | none =>
      refine ⟨⟨"optimistic-" ++ uid, e.status, some e.note, e.transport,
        { id := uid, nickname := "" }⟩, ?_, rfl, rfl, rfl, ?_, ?_⟩
      · simp only [getUserResponse, he, hf]
      · intro r hr
        exact absurd hr (by simp)
      · intro
        exact ⟨rfl, rfl⟩
    | some r =>
      refine ⟨⟨if r.id = "" then "optimistic-" ++ uid else r.id, e.status,
        some e.note, e.transport, r.user⟩, ?_, rfl, rfl, rfl, ?_, ?_⟩
      · simp only [getUserResponse, he, hf]
      · intro r' hr'
        obtain rfl := Option.some.inj hr'
        refine ⟨rfl, fun hne => by simp [hne], fun he' => by simp [he']⟩
      · intro hnone
        exact absurd hnone (by simp)
  · intro hnone
    simp only [getUserResponse, hnone]

/-- Claim C1 counterexample: a Repository record for `u1` exists but its
`id` is the empty string; with an overlay entry present, the effective
response's `id` is the synthesized `optimistic-u1`, not the record's `id` —
so the id does not come from the Repository record even though one exists. -/
theorem getUserResponse_emptyId_counterexample :
    findUserResponse [exEmptyIdRecord] "u1" = some exEmptyIdRecord ∧
    lookupEntry [("u1", exOutEntry)] "u1" = some exOutEntry ∧
    (getUserResponse [exEmptyIdRecord] [("u1", exOutEntry)] "u1").map Response.id =
      some "optimistic-u1" ∧
    "optimistic-u1" ≠ exEmptyIdRecord.id := by
  refine ⟨by decide, by decide, by decide, by decide⟩

/-- Claim C1 witness: the amended merge theorem applied to a state holding
both a Repository record (with nonempty id `r1`) and an overlay entry for
`u1`. -/
theorem getUserResponse_merge_witness :
    (getUserResponse [exRidingResponse] [("u1", exOutEntry)] "u1").map Response.status =
      some ResponseStatus.OUT ∧
    (getUserResponse [exRidingResponse] [("u1", exOutEntry)] "u1").map Response.id =
      some "r1" := by
  obtain ⟨eff, heff, hst, _, _, hrec, _⟩ :=
    (getUserResponse_merge [exRidingResponse] [("u1", exOutEntry)] "u1").1
      exOutEntry (by decide)
  obtain ⟨_, hid, _⟩ := hrec exRidingResponse (by decide)
  rw [heff, Option.map_some', Option.map_some', hst, hid (by decide)]
  exact ⟨rfl, rfl⟩

/-- Claim C4 (code bug): when the note-change submit mutation returns an
unsuccessful result (retries exhausted), `handleNoteChange` leaves the
user's optimistic overlay entry in place and leaves the last-error slot
empty — the entry persists past the end of the mutation and keeps masking
the Repository state, contrary to the documented reconciliation contract.
Evaluated at the failing input: user `u1` of `exRidingState` edits the note
to "late" and the mutation returns `{success: false}`. -/
theorem handleNoteChange_failure_leaves_overlay :
    lookupEntry (handleNoteChange exRidingState "u1" "late"
        (CallOutcome.fail "Failed to submit response")).state.optimisticResponses "u1" =
      some { status := ResponseStatus.IN, note := "late"
           , transport := some TransportType.RIDING } ∧
    (handleNoteChange exRidingState "u1" "late"
        (CallOutcome.fail "Failed to submit response")).state.error = none ∧
    (handleNoteChange exRidingState "u1" "late"
        (CallOutcome.fail "Failed to submit response")).result.success = false ∧
    getUserResponse
        (handleNoteChange exRidingState "u1" "late"
          (CallOutcome.fail "Failed to submit response")).state.session.responses
        (handleNoteChange exRidingState "u1" "late"
          (CallOutcome.fail "Failed to submit response")).state.optimisticResponses
        "u1" ≠
      findUserResponse exRidingState.session.responses "u1" := by
  refine ⟨by decide, by decide, by decide, by decide⟩

/-- Claim C5 (code bug): when the toggle-off delete mutation fails,
`handleStatusClick` restores only `{status, note}` to the overlay — the
restore object omits `transport` (violating the overlay state's own
declared type), so the effective response after the failure has no
transport instead of the prior `RIDING`, and the interface does not revert
to the pre-toggle state.  Evaluated at the failing input: user `u1` with
prior `{IN, "bring cart", RIDING}` toggles `IN` off and the delete fails. -/
theorem handleStatusClick_toggleOff_failure_drops_transport :
    (getUserResponse exRidingState.session.responses
        exRidingState.optimisticResponses "u1").bind Response.transport =
      some TransportType.RIDING ∧
    lookupEntry (handleStatusClick exRidingState "u1" ResponseStatus.IN
        (CallOutcome.fail "Failed to delete response")).state.optimisticResponses "u1" =
      some { status := ResponseStatus.IN, note := "bring cart", transport := none } ∧
    (getUserResponse
        (handleStatusClick exRidingState "u1" ResponseStatus.IN
          (CallOutcome.fail "Failed to delete response")).state.session.responses
        (handleStatusClick exRidingState "u1" ResponseStatus.IN
          (CallOutcome.fail "Failed to delete response")).state.optimisticResponses
        "u1").bind Response.transport = none ∧
    getUserResponse
        (handleStatusClick exRidingState "u1" ResponseStatus.IN
          (CallOutcome.fail "Failed to delete response")).state.session.responses
        (handleStatusClick exRidingState "u1" ResponseStatus.IN
          (CallOutcome.fail "Failed to delete response")).state.optimisticResponses
        "u1" ≠
      getUserResponse exRidingState.session.responses
        exRidingState.optimisticResponses "u1" := by
  refine ⟨by decide, by decide, by decide, by decide⟩

/-- Toggle-off helper: when the current effective response carries the
requested status, `handleStatusClick` clears the overlay entry before the
mutation call and issues exactly one delete mutation. -/
theorem statusClick_sameStatus_deletes (st : HookState) (u : String)
    (s : ResponseStatus) (o : CallOutcome) (r : Response)
    (hr : getUserResponse st.session.responses st.optimisticResponses u = some r)
    (hs : r.status = s) :
    mutationCalls (handleStatusClick st u s o).events = [Event.callDelete st.session.id u] ∧
    ∃ rest, (handleStatusClick st u s o).events =
      [Event.setSubmitting (some u), Event.setErr none, Event.ovClear u,
       Event.callDelete st.session.id u] ++ rest := by
  simp only [handleStatusClick, emitSetSubmitting, emitSetError, emitOvSet, emitOvClear,
    emitCallSubmit, emitCallDelete, emitSchedule, hr, hs]
  cases o <;>
    simp [mutationCalls, List.filter_cons, List.filter_nil]

/-- Set-path helper: when no effective response carries the requested
status, `handleStatusClick` writes an overlay entry and issues exactly one
submit mutation carrying the requested status. -/
theorem statusClick_otherStatus_submits (st : HookState) (u : String)
    (s : ResponseStatus) (o : CallOutcome)
    (hns : ∀ r, getUserResponse st.session.responses st.optimisticResponses u = some r →
      r.status ≠ s) :
    ∃ p rest, p.userId = u ∧ p.status = s ∧
      (handleStatusClick st u s o).events =
        [Event.setSubmitting (some u), Event.setErr none,
         Event.ovSet u { status := s, note := p.note, transport := some p.transport },
         Event.callSubmit st.session.id p] ++ rest ∧
      mutationCalls (handleStatusClick st u s o).events =
        [Event.callSubmit st.session.id p] := by
  cases hr : getUserResponse st.session.responses st.optimisticResponses u with
  | none =>
    cases o with
    | ok =>
      refine ⟨⟨u, s, "", TransportType.WALKING⟩,
        [Event.ovClear u, Event.setSubmitting none], rfl, rfl, ?_, ?_⟩ <;>
        simp [handleStatusClick, emitSetSubmitting, emitSetError, emitOvSet, emitOvClear,
          emitCallSubmit, emitCallDelete, hr, mutationCalls]
    | fail msg =>
      refine ⟨⟨u, s, "", TransportType.WALKING⟩,
        [Event.ovClear u, Event.setSubmitting none], rfl, rfl, ?_, ?_⟩ <;>
        simp [handleStatusClick, emitSetSubmitting, emitSetError, emitOvSet, emitOvClear,
          emitCallSubmit, emitCallDelete, hr, mutationCalls]
    | thrown msg =>
      refine ⟨⟨u, s, "", TransportType.WALKING⟩,
        [Event.setErr (some msg), Event.ovClear u, Event.setSubmitting none], rfl, rfl, ?_, ?_⟩ <;>
        simp [handleStatusClick, emitSetSubmitting, emitSetError, emitOvSet, emitOvClear,
          emitCallSubmit, emitCallDelete, hr, mutationCalls]
  | some r =>
    have hdec : decide (r.status = s) = false := by simp [hns r hr]
    cases o with
    | ok =>
      refine ⟨⟨u, s, r.note.getD "", r.transport.getD TransportType.WALKING⟩,
        [Event.ovClear u, Event.setSubmitting none], rfl, rfl, ?_, ?_⟩ <;>
        simp [handleStatusClick, emitSetSubmitting, emitSetError, emitOvSet, emitOvClear,
          emitCallSubmit, emitCallDelete, hr, hdec, mutationCalls]
    | fail msg =>
      refine ⟨⟨u, s, r.note.getD "", r.transport.getD TransportType.WALKING⟩,
        [Event.ovClear u, Event.setSubmitting none], rfl, rfl, ?_, ?_⟩ <;>
        simp [handleStatusClick, emitSetSubmitting, emitSetError, emitOvSet, emitOvClear,
          emitCallSubmit, emitCallDelete, hr, hdec, mutationCalls]
    | thrown msg =>
      refine ⟨⟨u, s, r.note.getD "", r.transport.getD TransportType.WALKING⟩,
        [Event.setErr (some msg), Event.ovClear u, Event.setSubmitting none], rfl, rfl, ?_, ?_⟩ <;>
        simp [handleStatusClick, emitSetSubmitting, emitSetError, emitOvSet, emitOvClear,
          emitCallSubmit, emitCallDelete, hr, hdec, mutationCalls]

/-- Claim C6: if the user's current effective response already has the
requested status, `handleStatusClick` clears the overlay entry immediately
(before the call) and issues a delete mutation — never a submit; otherwise
it writes an optimistic overlay entry and issues a submit mutation.  In
particular, `setStatus(u1, IN)` twice consecutively (the first submit
succeeding and its echo merged into the Repository) issues a delete
mutation the second time. -/
theorem handleStatusClick_toggle_behavior :
    (∀ (st : HookState) (u : String) (s : ResponseStatus) (o : CallOutcome) (r : Response),
      getUserResponse st.session.responses st.optimisticResponses u = some r →
      r.status = s →
      mutationCalls (handleStatusClick st u s o).events =
        [Event.callDelete st.session.id u] ∧
      ∃ rest, (handleStatusClick st u s o).events =
        [Event.setSubmitting (some u), Event.setErr none, Event.ovClear u,
         Event.callDelete st.session.id u] ++ rest) ∧
    (∀ (st : HookState) (u : String) (s : ResponseStatus) (o : CallOutcome),
      (∀ r, getUserResponse st.session.responses st.optimisticResponses u = some r →
        r.status ≠ s) →
      ∃ p rest, p.userId = u ∧ p.status = s ∧
        (handleStatusClick st u s o).events =
          [Event.setSubmitting (some u), Event.setErr none,
           Event.ovSet u { status := s, note := p.note, transport := some p.transport },
           Event.callSubmit st.session.id p] ++ rest ∧
        mutationCalls (handleStatusClick st u s o).events =
          [Event.callSubmit st.session.id p]) ∧
    (mutationCalls (handleStatusClick exEmptyState "u1" ResponseStatus.IN CallOutcome.ok).events =
      [Event.callSubmit "s1" ⟨"u1", ResponseStatus.IN, "", TransportType.WALKING⟩] ∧
     mutationCalls (handleStatusClick
        { (handleStatusClick exEmptyState "u1" ResponseStatus.IN CallOutcome.ok).state with
          session := applySubmitSuccess exEmptyState.session "u1" exEchoIn }
        "u1" ResponseStatus.IN CallOutcome.ok).events =
      [Event.callDelete "s1" "u1"]) :=
  ⟨fun st u s o r hr hs => statusClick_sameStatus_deletes st u s o r hr hs,
   fun st u s o hns => statusClick_otherStatus_submits st u s o hns,
   by decide, by decide⟩

/-- Claim C6 witness: user `u1` whose effective status is already `IN`
clicks `IN` — a delete mutation is issued. -/
theorem handleStatusClick_toggle_witness :
    mutationCalls (handleStatusClick exRidingState "u1" ResponseStatus.IN CallOutcome.ok).events =
      [Event.callDelete "s1" "u1"] :=
  (handleStatusClick_toggle_behavior.1 exRidingState "u1" ResponseStatus.IN CallOutcome.ok
    exRidingResponse (by decide) (by decide)).1

/-- Claim C7: the note-change submit payload carries the user's current
effective status (defaulting to `UNDECIDED`) and effective transport
(defaulting to `WALKING`) unchanged, with the note trimmed of surrounding
whitespace; in particular a user with `{IN, "bring cart", RIDING}` calling
`setNote(u, "running late")` submits `{IN, "running late", RIDING}`. -/
theorem handleNoteChange_preserves_status_transport :
    (∀ (st : HookState) (u note : String) (o : CallOutcome),
      mutationCalls (handleNoteChange st u note o).events =
        [Event.callSubmit st.session.id
          ⟨u,
           ((getUserResponse st.session.responses st.optimisticResponses u).map
             Response.status).getD ResponseStatus.UNDECIDED,
           jsTrim note,
           ((getUserResponse st.session.responses st.optimisticResponses u).bind
             Response.transport).getD TransportType.WALKING⟩]) ∧
    (mutationCalls (handleNoteChange exRidingState "u1" "running late" CallOutcome.ok).events =
      [Event.callSubmit "s1"
        ⟨"u1", ResponseStatus.IN, "running late", TransportType.RIDING⟩]) := by
  constructor
  · intro st u note o
    cases o <;>
      simp [handleNoteChange, emitSetSubmitting, emitSetError, emitOvSet, emitOvClear,
        emitCallSubmit, emitCallDelete, mutationCalls]
  · decide

/-- Claim C8 counterexample: `handleNoteChange` (and likewise
`handleTransportChange`) performs no `setSubmittingResponse` call at all —
the user is never marked as submitting during a note-change mutation,
refuting "each of the three mutation operations marks the user as
submitting for the operation's duration". -/
theorem handleNoteChange_never_marks_submitting :
    submitMarks (handleNoteChange exRidingState "u1" "x" CallOutcome.ok).events = [] ∧
    ¬ (Event.setSubmitting (some "u1") ∈
        (handleNoteChange exRidingState "u1" "x" CallOutcome.ok).events) ∧
    submitMarks (handleTransportChange exRidingState "u1" TransportType.RIDING
      CallOutcome.ok).events = [] := by
  refine ⟨by decide, by decide, by decide⟩

/-- Claim C8 (amended): only `handleStatusClick` touches the Submission
Tracker — it marks the user at entry and clears the mark on every exit path
(success, returned failure, thrown exception), so `submittingResponse` is
`none` once it finishes; `handleNoteChange` and `handleTransportChange`
never touch the mark, leaving it exactly as it was, in all outcomes. -/
theorem submissionTracker_marks_only_in_statusClick :
    (∀ (st : HookState) (u : String) (s : ResponseStatus) (o : CallOutcome),
      submitMarks (handleStatusClick st u s o).events = [some u, none] ∧
      (handleStatusClick st u s o).state.submittingResponse = none) ∧
    (∀ (st : HookState) (u n : String) (o : CallOutcome),
      submitMarks (handleNoteChange st u n o).events = [] ∧
      (handleNoteChange st u n o).state.submittingResponse = st.submittingResponse) ∧
    (∀ (st : HookState) (u : String) (t : TransportType) (o : CallOutcome),
      submitMarks (handleTransportChange st u t o).events = [] ∧
      (handleTransportChange st u t o).state.submittingResponse = st.submittingResponse) := by
  refine ⟨?_, ?_, ?_⟩
  · intro st u s o
    cases hr : getUserResponse st.session.responses st.optimisticResponses u with
    | none =>
      cases o <;>
        simp [handleStatusClick, emitSetSubmitting, emitSetError, emitOvSet, emitOvClear,
          emitCallSubmit, emitCallDelete, hr, submitMarks]
    | some r =>
      cases hd : decide (r.status = s) <;> cases o <;>
        simp [handleStatusClick, emitSetSubmitting, emitSetError, emitOvSet, emitOvClear,
          emitCallSubmit, emitCallDelete, hr, hd, submitMarks]
  · intro st u n o
    cases o <;>
      simp [handleNoteChange, emitSetSubmitting, emitSetError, emitOvSet, emitOvClear,
        emitCallSubmit, emitCallDelete, submitMarks]
  · intro st u t o
    cases o <;>
      simp [handleTransportChange, emitSetSubmitting, emitSetError, emitOvSet, emitOvClear,
        emitCallSubmit, emitCallDelete, emitSchedule, submitMarks]

/-- Claim C9: after a successful `handleTransportChange` the written
overlay entry is still present at the instant the success callback has run
(no immediate clear event exists), a 100 ms settle callback is scheduled,
and running that callback clears the entry; after a returned failure or a
thrown exception the entry is cleared immediately (no restore) and nothing
is scheduled. -/
theorem handleTransportChange_settle_delay (st : HookState) (u : String)
    (t : TransportType) :
    (lookupEntry (handleTransportChange st u t CallOutcome.ok).state.optimisticResponses u =
      some ⟨((getUserResponse st.session.responses st.optimisticResponses u).map
               Response.status).getD ResponseStatus.UNDECIDED,
            ((getUserResponse st.session.responses st.optimisticResponses u).bind
               Response.note).getD "",
            some t⟩) ∧
    (handleTransportChange st u t CallOutcome.ok).state.timers = st.timers ++ [⟨100, u⟩] ∧
    (handleTransportChange st u t CallOutcome.ok).events.filter (isOvClearFor u) = [] ∧
    lookupEntry (runTimer (handleTransportChange st u t CallOutcome.ok).state
      ⟨100, u⟩).optimisticResponses u = none ∧
    (∀ msg,
      lookupEntry (handleTransportChange st u t
        (CallOutcome.fail msg)).state.optimisticResponses u = none ∧
      (handleTransportChange st u t (CallOutcome.fail msg)).state.timers = st.timers) ∧
    (∀ msg,
      lookupEntry (handleTransportChange st u t
        (CallOutcome.thrown msg)).state.optimisticResponses u = none ∧
      (handleTransportChange st u t (CallOutcome.thrown msg)).state.timers = st.timers) := by
  refine ⟨?_, ?_, ?_, ?_, ?_, ?_⟩ <;>
    simp [handleTransportChange, emitSetSubmitting, emitSetError, emitOvSet, emitOvClear,
      emitCallSubmit, emitCallDelete, emitSchedule, runTimer, isOvClearFor,
      lookupEntry_setKey, lookupEntry_eraseKey]

/-- Claim C10: the Submission Tracker is a single slot, not a per-user map:
at most one user is marked at any time, marking `v` makes `isSubmitting u`
false for every `u ≠ v` (and true for `v`), and a status mutation for `v`
begins by overwriting the slot with `v` even if another user's request is
still in flight. -/
theorem submissionTracker_single_slot :
    (∀ (st : HookState) (u v : String),
      isSubmitting st u = true → isSubmitting st v = true → u = v) ∧
    (∀ (st : HookState) (evs : List Event) (u v : String), u ≠ v →
      isSubmitting (emitSetSubmitting (st, evs) (some v)).1 u = false ∧
      isSubmitting (emitSetSubmitting (st, evs) (some v)).1 v = true) ∧
    (∀ (st : HookState) (u : String) (s : ResponseStatus) (o : CallOutcome),
      (handleStatusClick st u s o).events.head? = some (Event.setSubmitting (some u))) := by
  refine ⟨?_, ?_, ?_⟩
  · intro st u v h1 h2
    simp only [isSubmitting, beq_iff_eq] at h1 h2
    rw [h1] at h2
    exact Option.some.inj h2
  · intro st evs u v hne
    constructor
    · simp [isSubmitting, emitSetSubmitting, Ne.symm hne]
    · simp [isSubmitting, emitSetSubmitting]
  · intro st u s o
    cases hr : getUserResponse st.session.responses st.optimisticResponses u with
    | none =>
      cases o <;>
        simp [handleStatusClick, emitSetSubmitting, emitSetError, emitOvSet, emitOvClear,
          emitCallSubmit, emitCallDelete, hr]
    | some r =>
      cases hd : decide (r.status = s) <;> cases o <;>
        simp [handleStatusClick, emitSetSubmitting, emitSetError, emitOvSet, emitOvClear,
          emitCallSubmit, emitCallDelete, hr, hd]

/-- Claim C10 witness: marking `u2` unmarks `u1`. -/
theorem submissionTracker_single_slot_witness :
    isSubmitting (emitSetSubmitting (exEmptyState, []) (some "u2")).1 "u1" = false ∧
    isSubmitting (emitSetSubmitting (exEmptyState, []) (some "u2")).1 "u2" = true :=
  submissionTracker_single_slot.2.1 exEmptyState [] "u1" "u2" (by decide)

end Golf
